import Mathlib

/-!
Shallow embedding of the chat console in `src/pages/Chat/index.tsx`
(jutaCRM).  The network is modelled by oracle parameters: an attempt
oracle `Nat → Option α` gives the outcome of the k-th request attempt
(`none` = network error or non-success status, `some v` = parsed body),
and the OAuth exchange / send / search calls take their outcome as an
explicit argument.  React `useState` state is threaded explicitly
through a `ChatState` record.
-/

/-- `Message.text` payload, from the TS interface `Message.text : { body: string }`. -/
structure TextBody where
  body : String
deriving DecidableEq

/-- `Message.image` payload, from the TS interface `Message.image : { link?, caption? }`. -/
structure ImagePayload where
  link : Option String
  caption : Option String
deriving DecidableEq

/-- The local `Message` interface (index.tsx lines 30-42): only `id` is
required; `text`, `from_me`, `createdAt`, `type`, `image` are optional. -/
structure Message where
  id : String
  text : Option TextBody
  from_me : Option Bool
  createdAt : Option Nat
  type : Option String
  image : Option ImagePayload
deriving DecidableEq

/-- The local `Chat` interface (index.tsx lines 24-28): all fields optional
except none; `id` and `name` are optional strings, `last_message` an
optional `Message`. -/
structure Chat where
  id : Option String
  name : Option String
  last_message : Option Message
deriving DecidableEq

/-- A remote message as delivered by the gateway
(`{ id, text?: {body}, from_me, timestamp, type, image? }`, spec section 6 /
the response shapes consumed at index.tsx lines 239-248 and 297-304). -/
structure RawMessage where
  id : String
  text : Option TextBody
  from_me : Bool
  timestamp : Nat
  type : String
  image : Option ImagePayload
deriving DecidableEq

/-- The component state held in `useState` hooks (index.tsx lines 45-49):
chat list, selected chat id, message list, composed input text and the
loading flag. -/
structure ChatState where
  chats : List Chat
  selectedChatId : Option String
  messages : List Message
  newMessage : String
  isLoading : Bool
deriving DecidableEq

/-- The response-to-state mapping applied to each fetched message
(index.tsx lines 239-248, 297-304, 482-491):
`text` is always populated, with body `message.text.body` when the remote
message has text and `""` otherwise; `image` is passed through
(`undefined` when absent). -/
def mapMessage (m : RawMessage) : Message :=
  { id := m.id
    text := some { body := match m.text with | some t => t.body | none => "" }
    from_me := some m.from_me
    createdAt := some m.timestamp
    type := some m.type
    image := m.image }

/-- `data.messages.map(...)` over a fetched message list. -/
def mapMessages (ms : List RawMessage) : List Message :=
  ms.map mapMessage

/-- One bounded-retry loop (index.tsx lines 224-263 and 421-454 and
467-506): while `retryCount < maxRetries`, set the loading flag, perform
the attempt; on success apply the response to the state, clear the
loading flag (the `finally` block) and return; on failure clear the
loading flag and continue with the next attempt.  The second `Nat`
argument is the remaining attempt budget (`maxRetries - retryCount`),
the first is the index of the next attempt; the result carries the final
state and the number of attempts performed. -/
def retryLoop {α : Type} (apply : α → ChatState → ChatState) (out : Nat → Option α) :
    Nat → Nat → ChatState → ChatState × Nat
  | _, 0, st => (st, 0)
  | k, fuel + 1, st =>
    let st1 : ChatState := { st with isLoading := true }
    match out k with
    | some v => ({ apply v st1 with isLoading := false }, 1)
    | none =>
      let st2 : ChatState := { st1 with isLoading := false }
      let rest := retryLoop apply out (k + 1) fuel st2
      (rest.1, rest.2 + 1)

/-- Success path of the response mapping of the message-fetch loops:
`setMessages(data.messages.map(...))`. -/
def applyMessages (raw : List RawMessage) (st : ChatState) : ChatState :=
  { st with messages := mapMessages raw }

/-- `fetchMessagesWithRetry` (index.tsx lines 217-266 in
`handleWhatsappClick`, and lines 460-509 in `handleRefreshClick`, which
are the same loop): no-op when no chat is selected, otherwise run the
bounded-retry loop, storing the mapped messages on success. -/
def fetchMessagesWithRetry (out : Nat → Option (List RawMessage)) (maxRetries : Nat)
    (st : ChatState) : ChatState × Nat :=
  match st.selectedChatId with
  | none => (st, 0)
  | some _ => retryLoop applyMessages out 0 maxRetries st

/-- Success path of the chat-list loop in `handleRefreshClick`
(index.tsx lines 436-439): `setChats(data.chats.map(chat => ({...chat})))`
followed by a call to `fetchMessagesWithRetry`. -/
def applyChats (mout : Nat → Option (List RawMessage)) (maxM : Nat)
    (raw : List Chat) (st : ChatState) : ChatState :=
  (fetchMessagesWithRetry mout maxM { st with chats := raw }).1

/-- `fetchChatsWithRetry` in `handleRefreshClick` (index.tsx lines
416-457): bounded-retry fetch of the chat list; on success it stores the
chat list and triggers the nested message fetch. -/
def fetchChatsRefresh (cout : Nat → Option (List Chat))
    (mout : Nat → Option (List RawMessage)) (maxC maxM : Nat)
    (st : ChatState) : ChatState × Nat :=
  retryLoop (applyChats mout maxM) cout 0 maxC st

/-- The initial-load `fetchChatsWithRetry` (index.tsx lines 173-205): a
single attempt guarded by try/catch/finally; on success the chat list is
stored, and the loading flag is cleared either way. -/
def fetchChatsInitial (result : Option (List Chat)) (st : ChatState) : ChatState :=
  match result with
  | some cs => { st with chats := cs, isLoading := false }
  | none => { st with isLoading := false }

theorem retryLoop_first_success {α : Type} (apply : α → ChatState → ChatState)
    (out : Nat → Option α) (v : α) :
    ∀ (m k fuel : Nat) (st : ChatState), m < fuel →
      (∀ j, j < m → out (k + j) = none) → out (k + m) = some v →
      retryLoop apply out k fuel st
        = ({ apply v { st with isLoading := true } with isLoading := false }, m + 1) := by
  intro m
  induction m with
  | zero =>
    intro k fuel st hfuel _ hsucc
    match fuel, hfuel with
    | fuel + 1, _ =>
      have hk : out k = some v := by simpa using hsucc
      simp [retryLoop, hk]
  | succ m ih =>
    intro k fuel st hfuel hfail hsucc
    match fuel, hfuel with
    | fuel + 1, hfuel =>
      have hk : out k = none := by simpa using hfail 0 (Nat.succ_pos m)
      have hfail2 : ∀ j, j < m → out (k + 1 + j) = none := by
        intro j hj
        have := hfail (j + 1) (Nat.succ_lt_succ hj)
        simpa [Nat.add_comm, Nat.add_assoc, Nat.add_left_comm] using this
      have hsucc2 : out (k + 1 + m) = some v := by
        have : k + (m + 1) = k + 1 + m := by omega
        simpa [this] using hsucc
      have hm : m < fuel := Nat.lt_of_succ_lt_succ hfuel
      have := ih (k + 1) fuel { st with isLoading := false } hm hfail2 hsucc2
      simp [retryLoop, hk, this]

theorem retryLoop_all_fail {α : Type} (apply : α → ChatState → ChatState)
    (out : Nat → Option α) (hfail : ∀ j, out j = none) :
    ∀ (fuel k : Nat) (st : ChatState),
      retryLoop apply out k fuel st
        = ((if fuel = 0 then st else { st with isLoading := false }), fuel) := by
  intro fuel
  induction fuel with
  | zero => intro k st; simp [retryLoop]
  | succ fuel ih =>
    intro k st
    have h2 := ih (k + 1) { st with isLoading := false }
    simp only [retryLoop, hfail k, h2]
    cases fuel <;> simp

theorem retryLoop_messages_preserves_chats (out : Nat → Option (List RawMessage)) :
    ∀ (fuel k : Nat) (st : ChatState),
      ((retryLoop applyMessages out k fuel st).1).chats = st.chats := by
  intro fuel
  induction fuel with
  | zero => intro k st; simp [retryLoop]
  | succ fuel ih =>
    intro k st
    have h2 := ih (k + 1) { st with isLoading := false }
    cases hk : out k with
    | some v => simp [retryLoop, hk, applyMessages]
    | none => simp only [retryLoop, hk]; exact h2

theorem fetchMessagesWithRetry_preserves_chats (out : Nat → Option (List RawMessage))
    (maxRetries : Nat) (st : ChatState) :
    ((fetchMessagesWithRetry out maxRetries st).1).chats = st.chats := by
  unfold fetchMessagesWithRetry
  cases st.selectedChatId with
  | none => rfl
  | some cid => exact retryLoop_messages_preserves_chats out maxRetries 0 st

theorem fetchMessagesWithRetry_of_selected (out : Nat → Option (List RawMessage))
    (maxRetries : Nat) (st : ChatState) (cid : String)
    (hsel : st.selectedChatId = some cid) :
    fetchMessagesWithRetry out maxRetries st = retryLoop applyMessages out 0 maxRetries st := by
  unfold fetchMessagesWithRetry
  rw [hsel]

/-- Claim C1: for every maximum retry count N ≥ 1 and every sequence of
attempt outcomes in which the first N−1 attempts fail and the N-th
attempt succeeds, the bounded-retry fetch (for the chat list or for a
conversation's message list) performs exactly N attempts, terminates at
the first success, and stores the transformed successful response in the
corresponding state (chats or messages).  The single-attempt initial
load is the N = 1 shape of the same behaviour. -/
theorem retry_stops_at_first_success
    (N M : Nat) (hN : 1 ≤ N)
    (mout : Nat → Option (List RawMessage)) (raw : List RawMessage)
    (cout : Nat → Option (List Chat)) (cs : List Chat)
    (mout2 : Nat → Option (List RawMessage))
    (st : ChatState) (cid : String) (hsel : st.selectedChatId = some cid)
    (hmf : ∀ k, k < N - 1 → mout k = none) (hms : mout (N - 1) = some raw)
    (hcf : ∀ k, k < N - 1 → cout k = none) (hcs : cout (N - 1) = some cs) :
    fetchMessagesWithRetry mout N st
      = ({ st with messages := mapMessages raw, isLoading := false }, N)
    ∧ (fetchChatsRefresh cout mout2 N M st).1.chats = cs
    ∧ (fetchChatsRefresh cout mout2 N M st).2 = N
    ∧ fetchChatsInitial (some cs) st = { st with chats := cs, isLoading := false } := by
  have hm := retryLoop_first_success applyMessages mout raw (N - 1) 0 N st (by omega)
      (fun j hj => by simpa using hmf j hj) (by simpa using hms)
  have hc := retryLoop_first_success (applyChats mout2 M) cout cs (N - 1) 0 N st (by omega)
      (fun j hj => by simpa using hcf j hj) (by simpa using hcs)
  have hN1 : N - 1 + 1 = N := by omega
  refine ⟨?_, ?_, ?_, rfl⟩
  · rw [fetchMessagesWithRetry_of_selected mout N st cid hsel, hm, hN1]
    rfl
  · unfold fetchChatsRefresh
    rw [hc]
    show (applyChats mout2 M cs { st with isLoading := true }).chats = cs
    unfold applyChats
    rw [fetchMessagesWithRetry_preserves_chats]
  · unfold fetchChatsRefresh
    rw [hc, hN1]

/-- A sample raw message used to instantiate the claims at concrete inputs. -/
def rawHello : RawMessage :=
  { id := "r1", text := some { body := "hi" }, from_me := false,
    timestamp := 7, type := "text", image := none }

/-- A sample chat used to instantiate the claims at concrete inputs. -/
def chatA : Chat := { id := some "A", name := some "Alice", last_message := none }

/-- A sample component state with chat "A" selected. -/
def stW : ChatState :=
  { chats := [chatA], selectedChatId := some "A", messages := [],
    newMessage := "", isLoading := false }

theorem retry_stops_at_first_success_witness :
    fetchMessagesWithRetry (fun k => if k = 1 then some [rawHello] else none) 2 stW
      = ({ stW with messages := mapMessages [rawHello], isLoading := false }, 2) := by
  have h := retry_stops_at_first_success 2 3 (by decide)
      (fun k => if k = 1 then some [rawHello] else none) [rawHello]
      (fun k => if k = 1 then some [chatA] else none) [chatA]
      (fun _ => none) stW "A" rfl
      (fun k hk => by
        have hk0 : k = 0 := by omega
        subst hk0; rfl)
      rfl
      (fun k hk => by
        have hk0 : k = 0 := by omega
        subst hk0; rfl)
      rfl
  exact h.1

/-- Claim C2: for every maximum retry count N, a bounded-retry fetch whose
every attempt fails performs exactly N attempts, then reports failure (the
loop exits with no successful response, which the code logs) and leaves the
previously stored chat list and message list unchanged. -/
theorem retry_exhaustion_preserves_state
    (N M : Nat) (mout mout2 : Nat → Option (List RawMessage))
    (cout : Nat → Option (List Chat))
    (st : ChatState) (cid : String) (hsel : st.selectedChatId = some cid)
    (hmf : ∀ k, mout k = none) (hcf : ∀ k, cout k = none) :
    ((fetchMessagesWithRetry mout N st).1.messages = st.messages
      ∧ (fetchMessagesWithRetry mout N st).1.chats = st.chats
      ∧ (fetchMessagesWithRetry mout N st).2 = N)
    ∧ ((fetchChatsRefresh cout mout2 N M st).1.chats = st.chats
      ∧ (fetchChatsRefresh cout mout2 N M st).1.messages = st.messages
      ∧ (fetchChatsRefresh cout mout2 N M st).2 = N) := by
  have hmsg : fetchMessagesWithRetry mout N st
      = ((if N = 0 then st else { st with isLoading := false }), N) := by
    rw [fetchMessagesWithRetry_of_selected mout N st cid hsel]
    exact retryLoop_all_fail applyMessages mout hmf N 0 st
  have hcht : fetchChatsRefresh cout mout2 N M st
      = ((if N = 0 then st else { st with isLoading := false }), N) := by
    unfold fetchChatsRefresh
    exact retryLoop_all_fail (applyChats mout2 M) cout hcf N 0 st
  rw [hmsg, hcht]
  cases N <;> simp

theorem retry_exhaustion_preserves_state_witness :
    (fetchMessagesWithRetry (fun _ => none) 3 stW).1.messages = ([] : List Message)
    ∧ (fetchMessagesWithRetry (fun _ => none) 3 stW).2 = 3
    ∧ (fetchChatsRefresh (fun _ => none) (fun _ => none) 3 5 stW).1.chats = [chatA] := by
  have h := retry_exhaustion_preserves_state 3 5 (fun _ => none) (fun _ => none)
      (fun _ => none) stW "A" rfl (fun _ => rfl) (fun _ => rfl)
  exact ⟨h.1.1, h.1.2.2, h.2.1⟩

/-- Observable events of one retry loop, in the order the source performs
them (index.tsx lines 224-263): `setLoading(true)` at the top of the try
block, the fetch attempt, the inter-retry wait inside the catch block on
failure, and `setLoading(false)` in the finally block at the end of the
iteration. -/
inductive Ev where
  | load (flag : Bool)
  | attempt (ok : Bool)
  | wait
deriving DecidableEq

/-- Event trace of the retry loop: each iteration emits
`setLoading(true)`, the attempt, on failure the retry wait (the catch
block runs before the finally block), and `setLoading(false)`; on success
the iteration returns after its finally block.  `out k` tells whether the
k-th attempt succeeds. -/
def loopTrace (out : Nat → Bool) : Nat → Nat → List Ev
  | _, 0 => []
  | k, fuel + 1 =>
    if out k then
      [Ev.load true, Ev.attempt true, Ev.load false]
    else
      Ev.load true :: Ev.attempt false :: Ev.wait :: Ev.load false ::
        loopTrace out (k + 1) fuel

/-- Value of the loading flag after processing one event. -/
def flagStep (b : Bool) (e : Ev) : Bool :=
  match e with
  | Ev.load c => c
  | _ => b

/-- Value of the loading flag after a list of events, starting from false
(the `useState(false)` initial value). -/
def flagAfter (evs : List Ev) : Bool :=
  evs.foldl flagStep false

/-- `busyOk b evs = true` when, starting from flag value `b`, every
attempt and every inter-retry wait in `evs` happens while the loading
flag is true. -/
def busyOk : Bool → List Ev → Bool
  | _, [] => true
  | _, Ev.load c :: rest => busyOk c rest
  | b, Ev.attempt _ :: rest => b && busyOk b rest
  | b, Ev.wait :: rest => b && busyOk b rest

theorem busyOk_loopTrace (out : Nat → Bool) :
    ∀ (fuel k : Nat), busyOk false (loopTrace out k fuel) = true := by
  intro fuel
  induction fuel with
  | zero => intro k; rfl
  | succ fuel ih =>
    intro k
    cases hk : out k with
    | true => simp [loopTrace, hk, busyOk]
    | false => simp [loopTrace, hk, busyOk]; exact ih (k + 1)

theorem flagAfter_loopTrace (out : Nat → Bool) :
    ∀ (fuel k : Nat), flagAfter (loopTrace out k fuel) = false := by
  intro fuel
  induction fuel with
  | zero => intro k; rfl
  | succ fuel ih =>
    intro k
    cases hk : out k with
    | true => simp [loopTrace, hk, flagAfter, flagStep]
    | false =>
      simp only [loopTrace, hk, if_false, Bool.false_eq_true]
      exact ih (k + 1)

/-- An outcome sequence whose first attempt fails and second succeeds. -/
def failThenOk : Nat → Bool := fun n => n == 1

/-- Claim C5 counterexample: in the two-iteration trace of the retry loop
where the first attempt fails and the second succeeds, the loading flag is
false after the fourth event (the finally block of the failed first
iteration) even though the loop has not yet exited (three further events
follow), so the flag does not stay true continuously until the loop exits
and does not become false only after the loop exits. -/
theorem loading_flag_drops_between_iterations :
    0 < 4 ∧ 4 < (loopTrace failThenOk 0 2).length
    ∧ flagAfter ((loopTrace failThenOk 0 2).take 4) = false := by
  decide

/-- Claim C5, amended: in every bounded-retry fetch loop the loading flag
is true during every attempt and during every inter-retry wait (the wait
happens inside the catch block, before the finally block), it is reset to
false by the finally block at the end of each iteration — so it is
momentarily false between consecutive iterations, not only after the loop
exits — it is false once the loop exits, and each iteration (in
particular the first) begins by setting it to true. -/
theorem loading_flag_per_iteration (out : Nat → Bool) (fuel k : Nat) :
    busyOk false (loopTrace out k fuel) = true
    ∧ flagAfter (loopTrace out k fuel) = false
    ∧ (loopTrace out k (fuel + 1)).head? = some (Ev.load true) := by
  refine ⟨busyOk_loopTrace out fuel k, flagAfter_loopTrace out fuel k, ?_⟩
  cases hk : out k <;> simp [loopTrace, hk]

/-- `setSelectedChatId` from the chat-list entry click handler
(index.tsx line 531): the only state change performed by selecting a
conversation. -/
def selectChat (st : ChatState) (chatId : String) : ChatState :=
  { st with selectedChatId := some chatId }

/-- The part of the `useEffect` on `selectedChatId` (index.tsx lines
273-289) that runs before the fetch response arrives: a no-op when no chat
is selected, otherwise `setLoading(true)`; the message list is not
touched. -/
def messagesEffectBegin (st : ChatState) : ChatState :=
  match st.selectedChatId with
  | none => st
  | some _ => { st with isLoading := true }

/-- The remainder of the same `useEffect` once the fetch resolves
(index.tsx lines 289-315): on a response, store the mapped messages; in
the finally block, clear the loading flag. -/
def messagesEffectEnd (st : ChatState) (result : Option (List RawMessage)) : ChatState :=
  match result with
  | some raw => { st with messages := mapMessages raw, isLoading := false }
  | none => { st with isLoading := false }

/-- A message already on screen before the selection changes. -/
def msgHello : Message :=
  { id := "m1", text := some { body := "hello" }, from_me := some false,
    createdAt := some 5, type := some "text", image := none }

/-- A state displaying conversation "A" with one message. -/
def stStale : ChatState :=
  { chats := [chatA], selectedChatId := some "A", messages := [msgHello],
    newMessage := "", isLoading := false }

/-- Claim C6 counterexample: switching the selection from "A" to "B" and
running the effect up to the fetch suspension point leaves the previously
displayed message list in place — it is not cleared before the new
conversation's messages arrive. -/
theorem switch_does_not_clear_messages :
    (messagesEffectBegin (selectChat stStale "B")).messages = [msgHello]
    ∧ [msgHello] ≠ ([] : List Message) := by
  decide

/-- Claim C6, amended: when the selected conversation changes, the
previously displayed message list stays on screen unchanged while the
loading indicator is shown; the list is replaced (not cleared first) only
when the new conversation's fetch succeeds. -/
theorem switch_keeps_messages_until_fetch (st : ChatState) (chatId : String)
    (raw : List RawMessage) :
    (messagesEffectBegin (selectChat st chatId)).messages = st.messages
    ∧ (messagesEffectBegin (selectChat st chatId)).isLoading = true
    ∧ (messagesEffectEnd (messagesEffectBegin (selectChat st chatId)) (some raw)).messages
        = mapMessages raw := by
  refine ⟨rfl, rfl, rfl⟩

/-- Model of `String.prototype.trim` as used by the guard
`!newMessage.trim()` (index.tsx line 320): strip leading and trailing
whitespace characters. -/
def jsTrim (s : String) : String :=
  String.mk (((s.toList.dropWhile Char.isWhitespace).reverse.dropWhile Char.isWhitespace).reverse)

/-- The optimistic message built after a successful send (index.tsx lines
340-348): the returned message id, the composed text as body, type
"text", outbound, timestamp 0. -/
def sentMessage (mid body : String) : Message :=
  { id := mid, text := some { body := body }, from_me := some true,
    createdAt := some 0, type := some "text", image := none }

/-- The chat-list update after a successful send (index.tsx lines
350-352): the chat whose id equals the selected chat id gets the new
message as its last-message preview; every other chat is returned as is. -/
def updateLastMessage (chats : List Chat) (cid : String) (nm : Message) : List Chat :=
  chats.map (fun c => if c.id = some cid then { c with last_message := some nm } else c)

/-- `handleSendMessage` (index.tsx lines 319-358): a no-op returning
without a network call when the trimmed composed text is empty or no chat
is selected; otherwise the send request is issued (`sendResult` is its
outcome, `some mid` on success with the returned message id).  On failure
the error is logged and no state changes; on success the new message is
appended, the selected chat's preview updated and the input cleared.  The
Bool records whether a network call was made. -/
def handleSendMessage (st : ChatState) (sendResult : Option String) : ChatState × Bool :=
  match st.selectedChatId with
  | none => (st, false)
  | some cid =>
    if jsTrim st.newMessage = "" then (st, false)
    else
      match sendResult with
      | none => (st, true)
      | some mid =>
        let nm := sentMessage mid st.newMessage
        ({ st with
            messages := st.messages ++ [nm]
            chats := updateLastMessage st.chats cid nm
            newMessage := "" }, true)

/-- Claim C7: when the composed text is non-empty after trimming, a
conversation is selected, and the send request succeeds, handleSendMessage
appends exactly one new outbound message whose body is the sent text,
updates the selected conversation's last-message preview to that message
leaving every other conversation's entry unchanged, and clears the input
text. -/
theorem send_success_appends_one_message (st : ChatState) (cid mid : String)
    (htrim : jsTrim st.newMessage ≠ "") (hsel : st.selectedChatId = some cid) :
    handleSendMessage st (some mid)
      = ({ st with
            messages := st.messages ++ [sentMessage mid st.newMessage]
            chats := updateLastMessage st.chats cid (sentMessage mid st.newMessage)
            newMessage := "" }, true)
    ∧ (handleSendMessage st (some mid)).1.messages.length = st.messages.length + 1
    ∧ (sentMessage mid st.newMessage).text = some { body := st.newMessage }
    ∧ (sentMessage mid st.newMessage).from_me = some true
    ∧ (∀ c ∈ st.chats, c.id ≠ some cid → c ∈ (handleSendMessage st (some mid)).1.chats) := by
  have hmain : handleSendMessage st (some mid)
      = ({ st with
            messages := st.messages ++ [sentMessage mid st.newMessage]
            chats := updateLastMessage st.chats cid (sentMessage mid st.newMessage)
            newMessage := "" }, true) := by
    unfold handleSendMessage
    rw [hsel]
    simp [htrim]
  refine ⟨hmain, ?_, rfl, rfl, ?_⟩
  · rw [hmain]; simp
  · intro c hc hne
    rw [hmain]
    simp only [updateLastMessage]
    exact List.mem_map.2 ⟨c, hc, by simp [hne]⟩

/-- A state with chat "A" selected and the composed text "hi there". -/
def stCompose : ChatState :=
  { chats := [chatA], selectedChatId := some "A", messages := [msgHello],
    newMessage := "hi there", isLoading := false }

theorem send_success_appends_one_message_witness :
    handleSendMessage stCompose (some "mid9")
      = ({ stCompose with
            messages := [msgHello, sentMessage "mid9" "hi there"]
            chats := [{ chatA with last_message := some (sentMessage "mid9" "hi there") }]
            newMessage := "" }, true) := by
  have h := (send_success_appends_one_message stCompose "A" "mid9" (by decide) rfl).1
  rw [h]
  decide

/-- Claim C8: if the composed text is empty or whitespace-only, or no
conversation is selected, handleSendMessage performs no network call and
mutates no state; and if the send request fails, the failure is logged and
the message list, chat list, and input text are left unchanged (the Bool
component records that the network call was made). -/
theorem send_guard_and_failure_no_mutation (st : ChatState) (r : Option String) :
    ((jsTrim st.newMessage = "" ∨ st.selectedChatId = none)
        → handleSendMessage st r = (st, false))
    ∧ (∀ cid : String, st.selectedChatId = some cid → jsTrim st.newMessage ≠ ""
        → handleSendMessage st none = (st, true)) := by
  constructor
  · intro hguard
    cases hsel : st.selectedChatId with
    | none => unfold handleSendMessage; rw [hsel]
    | some cid =>
      have htrim : jsTrim st.newMessage = "" := by
        rcases hguard with h | h
        · exact h
        · rw [hsel] at h; cases h
      unfold handleSendMessage
      rw [hsel]
      simp [htrim]
  · intro cid hsel htrim
    unfold handleSendMessage
    rw [hsel]
    simp [htrim]

/-- A state with a selected chat but whitespace-only composed text. -/
def stBlank : ChatState :=
  { chats := [chatA], selectedChatId := some "A", messages := [msgHello],
    newMessage := "   ", isLoading := false }

theorem send_guard_and_failure_no_mutation_witness :
    handleSendMessage stBlank (some "mid9") = (stBlank, false)
    ∧ handleSendMessage stCompose none = (stCompose, true) := by
  refine ⟨(send_guard_and_failure_no_mutation stBlank (some "mid9")).1 (Or.inl (by decide)),
    (send_guard_and_failure_no_mutation stCompose none).2 "A" rfl (by decide)⟩

/-- A document in the `companies` collection of the tenant store
(fields read at index.tsx lines 158-165 and written at lines 101-104). -/
structure CompanyDoc where
  ghl_id : String
  ghl_secret : String
  refresh_token : String
  whapiToken : String
  access_token : String
deriving DecidableEq

/-- The token pair returned by a successful OAuth exchange
(index.tsx lines 99-103). -/
structure TokenPair where
  access_token : String
  refresh_token : String
deriving DecidableEq

/-- The tenant-id resolution in `fetchConfigFromDatabase` (index.tsx
lines 56 and 146-151): `companyId` starts as "014"; the Beverly admin
email maps to "014", the Billert admin email to "011", and any other
email — or no signed-in user — leaves the default "014". -/
def resolveCompanyId (email : Option String) : String :=
  if email = some "admin@beverly.com" then "014"
  else if email = some "admin@billert.com" then "011"
  else "014"

/-- `getDoc(doc(firestore, 'companies', cid))`: the companies collection
modelled as an association list from document id to document. -/
def getDocCompanies (docs : List (String × CompanyDoc)) (cid : String) : Option CompanyDoc :=
  (docs.find? (fun p => p.1 == cid)).map Prod.snd

/-- `setDoc(doc(firestore, 'companies', cid), { access_token, refresh_token },
{ merge: true })` (index.tsx lines 101-104): merge semantics overwrite only
the two token fields of an existing document; a missing document is
created with just those fields (the other fields empty). -/
def setDocMergeTokens (docs : List (String × CompanyDoc)) (cid a r : String) :
    List (String × CompanyDoc) :=
  if (docs.find? (fun p => p.1 == cid)).isSome then
    docs.map (fun p =>
      if p.1 == cid then (p.1, { p.2 with access_token := a, refresh_token := r }) else p)
  else
    docs ++ [(cid, { ghl_id := "", ghl_secret := "", refresh_token := r,
                     whapiToken := "", access_token := a })]

/-- `searchConversation` (index.tsx lines 117-138): the request outcome is
its argument; on success nothing is returned, on failure the error is
logged by the catch block and the function returns normally — the error is
not re-thrown.  The result is the log entries plus the outcome seen by the
caller. -/
def searchConversationModel (result : Except String (List String)) :
    List String × Except String Unit :=
  match result with
  | Except.ok _ => ([], Except.ok ())
  | Except.error e => (["Error searching conversation: " ++ e], Except.ok ())

/-- `ghlToken` (index.tsx lines 74-113) together with the config load it
performs (`fetchConfigFromDatabase`, lines 141-172, whose chat fetch is
modelled separately by `fetchChatsInitial`): resolve the tenant id from
the signed-in email, read that tenant's document for the OAuth
credentials (empty strings when the document is missing, matching the
untouched `ghlConfig` defaults), run the exchange; on failure the error
propagates (logged and re-thrown); on success the returned token pair is
written with merge semantics to the document `companies/014` — the id is
hard-coded at line 101 — and `searchConversation` is invoked once with
the new access token.  The result carries the updated store and the list
of access tokens passed to the downstream search call. -/
def ghlTokenModel (email : Option String) (docs : List (String × CompanyDoc))
    (exchange : String → String → String → Except String TokenPair) :
    Except String (List (String × CompanyDoc) × List String) :=
  let cid := resolveCompanyId email
  let cfg :=
    match getDocCompanies docs cid with
    | some d => (d.ghl_id, d.ghl_secret, d.refresh_token)
    | none => ("", "", "")
  match exchange cfg.1 cfg.2.1 cfg.2.2 with
  | Except.error e => Except.error e
  | Except.ok tp =>
      Except.ok (setDocMergeTokens docs "014" tp.access_token tp.refresh_token,
                 [tp.access_token])

/-- The Beverly tenant document, used as a concrete store entry. -/
def docBeverly : CompanyDoc :=
  { ghl_id := "idB", ghl_secret := "secB", refresh_token := "refB",
    whapiToken := "whB", access_token := "accB" }

/-- The Billert tenant document, used as a concrete store entry. -/
def docBillert : CompanyDoc :=
  { ghl_id := "idL", ghl_secret := "secL", refresh_token := "refL",
    whapiToken := "whL", access_token := "accL" }

/-- A concrete companies collection holding both tenants. -/
def docsBoth : List (String × CompanyDoc) := [("014", docBeverly), ("011", docBillert)]

/-- The Beverly document after the merge write of the new token pair. -/
def docBeverlyNew : CompanyDoc :=
  { docBeverly with access_token := "newAcc", refresh_token := "newRef" }

/-- Claim C3 counterexample: with the Billert admin signed in the resolved
tenant id is "011", yet after a successful exchange the new token pair is
persisted to the document "014" — the Billert tenant's own document keeps
its old tokens, so the write is not keyed by the signed-in tenant's
company id. -/
theorem token_persisted_to_wrong_tenant :
    resolveCompanyId (some "admin@billert.com") = "011"
    ∧ ghlTokenModel (some "admin@billert.com") docsBoth
        (fun _ _ _ => Except.ok { access_token := "newAcc", refresh_token := "newRef" })
      = Except.ok ([("014", docBeverlyNew), ("011", docBillert)], ["newAcc"])
    ∧ docBillert.access_token ≠ "newAcc" ∧ docBillert.refresh_token ≠ "newRef" := by
  exact ⟨rfl, rfl, by decide, by decide⟩

/-- Claim C3, amended: when the OAuth token exchange succeeds, the token
refresher persists both returned tokens with merge semantics (only the two
token fields of the document are overwritten) to the fixed document
`companies/014` — regardless of the signed-in tenant's resolved company
id, coinciding with the tenant's own document only when that id is
"014" — and then makes exactly one downstream conversation-search call
using the new access token. -/
theorem token_persist_merge_and_single_search (email : Option String)
    (docs : List (String × CompanyDoc)) (tp : TokenPair) (d : CompanyDoc) :
    ghlTokenModel email docs (fun _ _ _ => Except.ok tp)
      = Except.ok (setDocMergeTokens docs "014" tp.access_token tp.refresh_token,
                   [tp.access_token])
    ∧ setDocMergeTokens [("014", d)] "014" tp.access_token tp.refresh_token
      = [("014", { d with access_token := tp.access_token, refresh_token := tp.refresh_token })] := by
  constructor
  · unfold ghlTokenModel
    cases getDocCompanies docs (resolveCompanyId email) <;> rfl
  · rfl

/-- Claim C4: for every signed-in user whose email is neither the Beverly
admin nor the Billert admin address — including no signed-in user at
all — the config loader resolves the tenant id to the default "014", so
the session reads the Beverly tenant's document (credentials and gateway
token) rather than failing or being isolated. -/
theorem default_company_resolution (email : Option String)
    (h1 : email ≠ some "admin@beverly.com") (h2 : email ≠ some "admin@billert.com") :
    resolveCompanyId email = "014"
    ∧ ∀ docs : List (String × CompanyDoc),
        getDocCompanies docs (resolveCompanyId email) = getDocCompanies docs "014" := by
  have hr : resolveCompanyId email = "014" := by
    unfold resolveCompanyId
    rw [if_neg h1, if_neg h2]
  exact ⟨hr, fun docs => by rw [hr]⟩

theorem default_company_resolution_witness :
    resolveCompanyId (some "someone@else.com") = "014"
    ∧ getDocCompanies docsBoth (resolveCompanyId (some "someone@else.com"))
      = some docBeverly := by
  have h := default_company_resolution (some "someone@else.com") (by decide) (by decide)
  exact ⟨h.1, by rw [h.2 docsBoth]; decide⟩

/-- Claim C9 counterexample: a failing downstream conversation-search is
logged but the caller still receives a normal (non-error) result — the
search error is swallowed, not re-thrown. -/
theorem search_error_swallowed :
    (searchConversationModel (Except.error "boom")).2 = Except.ok ()
    ∧ (searchConversationModel (Except.error "boom")).1
      = ["Error searching conversation: boom"] := by
  exact ⟨rfl, rfl⟩

/-- Claim C9, amended: when the token refresh operation fails the error is
logged and re-thrown to the caller; when the downstream
conversation-search operation fails the error is logged but swallowed —
`searchConversation` returns normally and re-throws nothing.  Neither
operation retries (each runs its request exactly once per invocation). -/
theorem token_error_rethrown_search_error_swallowed (email : Option String)
    (docs : List (String × CompanyDoc)) (e : String) :
    ghlTokenModel email docs (fun _ _ _ => Except.error e) = Except.error e
    ∧ (searchConversationModel (Except.error e)).2 = Except.ok ()
    ∧ (searchConversationModel (Except.error e)).1
      = ["Error searching conversation: " ++ e] := by
  refine ⟨?_, rfl, rfl⟩
  unfold ghlTokenModel
  cases getDocCompanies docs (resolveCompanyId email) <;> rfl

/-- The bubble-width expression of the render layer (index.tsx lines
575-579): 320 for image-type messages, otherwise
`Math.min(message.text!.body!.length * 15, 350)` — defined only when the
message has a text payload. -/
def bubbleWidth (m : Message) : Option Nat :=
  if m.type = some "image" then some 320
  else m.text.map (fun t => min (t.body.length * 15) 350)

/-- Claim C10: every Message placed into the messages state — whether
produced by the message-fetch response mapping or constructed by a
successful send — has a defined text field whose body is a string (the
empty string when the remote message carries no text), so the render
layer's bubble-width expression `message.text!.body!.length` is
well-defined for every stored message regardless of its type. -/
theorem stored_messages_have_text
    (raws : List RawMessage) (st : ChatState) (r : Option String)
    (hinv : ∀ m ∈ st.messages, m.text.isSome = true) :
    (∀ m ∈ mapMessages raws, m.text.isSome = true ∧ (bubbleWidth m).isSome = true)
    ∧ (∀ m ∈ (handleSendMessage st r).1.messages, m.text.isSome = true) := by
  constructor
  · intro m hm
    obtain ⟨a, _, rfl⟩ := List.mem_map.1 hm
    refine ⟨rfl, ?_⟩
    by_cases himg : (mapMessage a).type = some "image"
    · simp [bubbleWidth, himg]
    · simp only [bubbleWidth, himg, mapMessage, if_false]
      split <;> rfl
  · intro m hm
    cases hsel : st.selectedChatId with
    | none =>
      rw [show (handleSendMessage st r).1 = st by unfold handleSendMessage; rw [hsel]] at hm
      exact hinv m hm
    | some cid =>
      by_cases htrim : jsTrim st.newMessage = ""
      · rw [show (handleSendMessage st r).1 = st by
          unfold handleSendMessage; rw [hsel]; simp [htrim]] at hm
        exact hinv m hm
      · cases r with
        | none =>
          rw [show (handleSendMessage st none).1 = st by
            unfold handleSendMessage; rw [hsel]; simp [htrim]] at hm
          exact hinv m hm
        | some mid =>
          rw [show (handleSendMessage st (some mid)).1.messages
              = st.messages ++ [sentMessage mid st.newMessage] by
            unfold handleSendMessage; rw [hsel]; simp [htrim]] at hm
          rcases List.mem_append.1 hm with h | h
          · exact hinv m h
          · rw [List.mem_singleton.1 h]; rfl

/-- A raw message carrying no text payload. -/
def rawNoText : RawMessage :=
  { id := "r2", text := none, from_me := true, timestamp := 9,
    type := "image", image := some { link := some "u", caption := none } }

theorem stored_messages_have_text_witness :
    (mapMessage rawNoText).text.isSome = true := by
  have h := stored_messages_have_text [rawNoText] stW none
    (fun m hm => by simp [stW] at hm)
  exact (h.1 (mapMessage rawNoText) (by simp [mapMessages])).1
